import Mathlib

/-!
A shallow embedding of the core of `canvas_dashboard.py` (CanvasNotes):
the term-extraction heuristic (`CanvasAPI.extract_term`), the remote fetch
(`CanvasAPI.make_request` / `get_courses`), the dashboard state operations
(`refresh_courses`, `hide_course`, `unhide_course`, `save_hidden_courses`,
`load_hidden_courses`, `save_api_config`, `save_courses_to_cache`,
`load_cached_courses`) and the per-course notes directory
(`open_course_details` + `handle_save_note_as`).

JSON dictionaries are modelled as structures with `Option` fields (`none` =
key absent), Python sets of hidden ids as duplicate-free lists, the remote
HTTP exchange as a value of type `Except HttpError (List CourseRecord)`
passed to the function that would perform the request, and file contents as
explicit fields of the application state.
-/

namespace CanvasNotes

/-! ## Python string helpers -/

/-- Python's `\s` class restricted to ASCII, as used by `str.strip`,
`str.rstrip` and the regex patterns of `extract_term`. -/
def isPySpace (c : Char) : Bool :=
  c == ' ' || c == '\t' || c == '\n' || c == '\r' || c == '\x0b' || c == '\x0c'

/-- `str.rstrip()` on a character list. -/
def rstripChars (l : List Char) : List Char :=
  (l.reverse.dropWhile isPySpace).reverse

/-- Python `str.rstrip()`. -/
def pyRStrip (s : String) : String :=
  String.mk (rstripChars s.data)

/-- Python `str.strip()`. -/
def pyStrip (s : String) : String :=
  String.mk (rstripChars (s.data.dropWhile isPySpace))

/-- Python `str.endswith(pat)`. -/
def pyEndsWith (s pat : String) : Bool :=
  decide (s.data.reverse.take pat.data.length = pat.data.reverse)

/-- `base_url.rstrip('/')` from `CanvasAPI.__init__`. -/
def rstripSlashes (s : String) : String :=
  String.mk ((s.data.reverse.dropWhile (fun c => c == '/')).reverse)

/-! ## Data model -/

/-- The JSON value of a course record's `term` key: its `name` entry
(`none` = absent) and whether the object holds any other key.  The Python
truthiness test `course_data['term']` is true exactly when the dict is
non-empty. -/
structure TermObj where
  name : Option String
  hasOtherKeys : Bool
deriving DecidableEq, Repr

/-- Truthiness of the term dict: non-empty. -/
def TermObj.truthy (t : TermObj) : Bool :=
  t.name.isSome || t.hasOtherKeys

/-- A raw course object from the remote API's JSON array; `none` = key
absent. -/
structure CourseRecord where
  id : Option Int
  name : Option String
  course_code : Option String
  workflow_state : Option String
  term : Option TermObj
  start_at : Option String
  end_at : Option String
deriving DecidableEq, Repr

/-- The `Course` dataclass of the source. -/
structure Course where
  id : Option Int
  name : String
  course_code : String
  workflow_state : String
  term : Option String
  start_at : Option String
  end_at : Option String
deriving DecidableEq, Repr

/-- One serialized course inside the cache file `canvas_courses.json`. -/
structure CourseDict where
  id : Option Int
  name : Option String
  course_code : Option String
  workflow_state : Option String
  term : Option String
  start_at : Option String
  end_at : Option String
deriving DecidableEq, Repr

/-- The cache file `{courses, last_updated, total_courses}`. -/
structure CacheData where
  courses : List CourseDict
  last_updated : String
  total_courses : Nat
deriving DecidableEq, Repr

/-- The config file `canvas_config.json`; `none` = key absent. -/
structure Config where
  canvas_url : Option String
  canvas_token : Option String
  hidden_courses : Option (List (Option Int))
  last_updated : Option String
deriving DecidableEq, Repr

/-- The `config = {}` default used when the config file is missing. -/
def Config.empty : Config :=
  { canvas_url := none, canvas_token := none, hidden_courses := none, last_updated := none }

/-- A `CanvasAPI` client instance (base_url already `rstrip('/')`-ed). -/
structure ApiClient where
  base_url : String
  token : String
deriving DecidableEq, Repr

/-- An HTTP-level failure of the remote request (status and reason). -/
structure HttpError where
  code : Nat
  reason : String
deriving DecidableEq, Repr

/-- What the remote exchange for the courses endpoint yields: a transport
or HTTP error, or the decoded JSON array of course records. -/
abbrev RemoteResult := Except HttpError (List CourseRecord)

/-! ## Regex machinery of `extract_term`

The three patterns of the source, `(Fall|Spring|Summer|Winter)\s*(\d{4})`
with `re.IGNORECASE`, `(\d{4})`, and `Term:\s*(\d+)`, implemented as
leftmost-match scans exactly as `re.search` finds them. -/

/-- First-match alternative, `a` wins when it is `some`. -/
def orO {α : Type} (a b : Option α) : Option α :=
  match a with
  | some x => some x
  | none => b

/-- Case-insensitive literal match at the head of the input; returns the
matched original characters and the rest of the input. -/
def matchCI : List Char → List Char → Option (List Char × List Char)
  | [], rest => some ([], rest)
  | _ :: _, [] => none
  | p :: ps, c :: cs =>
      if p.toLower = c.toLower then
        (matchCI ps cs).map (fun pr => (c :: pr.1, pr.2))
      else none

/-- Case-sensitive literal match at the head of the input; returns the rest. -/
def matchExact : List Char → List Char → Option (List Char)
  | [], rest => some rest
  | _ :: _, [] => none
  | p :: ps, c :: cs => if p = c then matchExact ps cs else none

/-- `\d{4}` at the head of the input. -/
def digit4 : List Char → Option (List Char)
  | a :: b :: c :: d :: _ =>
      if a.isDigit && b.isDigit && c.isDigit && d.isDigit then some [a, b, c, d]
      else none
  | _ => none

/-- After a season word matched leaving `rest`: `\s*(\d{4})`. -/
def seasonTail (seas rest : List Char) : Option (List Char × List Char) :=
  match digit4 (rest.dropWhile isPySpace) with
  | some ds => some (seas, ds)
  | none => none

/-- The season+year pattern anchored at the current position. -/
def seasonYearAt (s : List Char) : Option (List Char × List Char) :=
  orO ((matchCI "Fall".data s).bind (fun pr => seasonTail pr.1 pr.2))
    (orO ((matchCI "Spring".data s).bind (fun pr => seasonTail pr.1 pr.2))
      (orO ((matchCI "Summer".data s).bind (fun pr => seasonTail pr.1 pr.2))
        ((matchCI "Winter".data s).bind (fun pr => seasonTail pr.1 pr.2))))

/-- `re.search` of the season+year pattern: leftmost match. -/
def searchSeasonYear : List Char → Option (List Char × List Char)
  | [] => none
  | c :: cs => orO (seasonYearAt (c :: cs)) (searchSeasonYear cs)

/-- `re.search(r'(\d{4})', ...)`: leftmost run of four digits. -/
def searchYear : List Char → Option (List Char)
  | [] => none
  | c :: cs => orO (digit4 (c :: cs)) (searchYear cs)

/-- The `Term:\s*(\d+)` pattern anchored at the current position. -/
def termIdAt (s : List Char) : Option (List Char) :=
  (matchExact "Term:".data s).bind (fun rest =>
    let ds := (rest.dropWhile isPySpace).takeWhile Char.isDigit
    if ds.isEmpty then none else some ds)

/-- `re.search(r'Term:\s*(\d+)', ...)`. -/
def searchTermId : List Char → Option (List Char)
  | [] => none
  | c :: cs => orO (termIdAt (c :: cs)) (searchTermId cs)

/-- Python's `'Term:' in name` substring test, generalized to any pattern. -/
def containsSub (pat : List Char) : List Char → Bool
  | [] => pat.isEmpty
  | c :: cs => (matchExact pat (c :: cs)).isSome || containsSub pat cs

/-- `f"{match.group(1)} {match.group(2)}"`. -/
def seasonYearString (m : List Char × List Char) : String :=
  String.mk (m.1 ++ (' ' :: m.2))

/-! ## `CanvasAPI.extract_term` -/

/-- The pattern-based part of `extract_term` (everything after the explicit
`term` check), on the already-defaulted `name` and `course_code` strings. -/
def extract_from_patterns (name course_code : String) : String :=
  match searchSeasonYear name.data with
  | some m => seasonYearString m
  | none =>
    match searchSeasonYear course_code.data with
    | some m => seasonYearString m
    | none =>
      match searchYear name.data with
      | some y => String.mk y
      | none =>
        match searchYear course_code.data with
        | some y => String.mk y
        | none =>
          if containsSub "Term:".data name.data then
            match searchTermId name.data with
            | some ds => "Term: " ++ String.mk ds
            | none => "Current Term"
          else "Current Term"

/-- `CanvasAPI.extract_term`: explicit truthy `term` object first (its name
or `''`), otherwise the pattern cascade over `name` then `course_code`. -/
def extract_term (r : CourseRecord) : String :=
  match r.term with
  | some t =>
      if t.truthy then t.name.getD ""
      else extract_from_patterns (r.name.getD "") (r.course_code.getD "")
  | none => extract_from_patterns (r.name.getD "") (r.course_code.getD "")

/-- A course record with no `term` key, only `name` and `course_code`. -/
def patternRecord (name course_code : String) : CourseRecord :=
  { id := none, name := some name, course_code := some course_code,
    workflow_state := none, term := none, start_at := none, end_at := none }

/-! ## `CanvasAPI.make_request` / `get_courses` -/

/-- `make_request` for the courses endpoint: any exception of the request is
caught (`except Exception`), printed, and turned into the empty list. -/
def make_request (r : RemoteResult) : List CourseRecord :=
  match r with
  | .error _ => []
  | .ok data => data

/-- The per-record `Course(...)` construction inside `get_courses`. -/
def courseOfRecord (r : CourseRecord) : Course :=
  { id := r.id
    name := r.name.getD "Unknown Course"
    course_code := r.course_code.getD ""
    workflow_state := r.workflow_state.getD "available"
    term := some (extract_term r)
    start_at := r.start_at
    end_at := r.end_at }

/-- `CanvasAPI.get_courses`. -/
def get_courses (r : RemoteResult) : List Course :=
  let courses_data := make_request r
  if courses_data.isEmpty then []
  else courses_data.map courseOfRecord

/-! ## Application state

`SimpleDashboardApp`'s fields that the claims touch, with the two JSON files
it owns carried as explicit state.  The Python set `hidden_courses` is a
duplicate-free list of course ids (a course id read from a `Course` value is
an `Option Int`, as `id` may be absent in the raw record). -/

structure AppState where
  canvas_api : Option ApiClient
  courses : List Course
  hidden_courses : List (Option Int)
  config_file : Option Config
  data_file : Option CacheData
deriving DecidableEq, Repr

/-! ## Course cache (`save_courses_to_cache` / `load_cached_courses`) -/

/-- The `course_dict` serialization inside `save_courses_to_cache`. -/
def courseToDict (c : Course) : CourseDict :=
  { id := c.id, name := some c.name, course_code := some c.course_code,
    workflow_state := some c.workflow_state, term := c.term,
    start_at := c.start_at, end_at := c.end_at }

/-- The per-record `Course(...)` construction inside `load_cached_courses`,
with its `.get(..., default)` fallbacks. -/
def courseFromDict (d : CourseDict) : Course :=
  { id := d.id, name := d.name.getD "Unknown Course",
    course_code := d.course_code.getD "",
    workflow_state := d.workflow_state.getD "available", term := d.term,
    start_at := d.start_at, end_at := d.end_at }

/-- The `cache_data` dict written by `save_courses_to_cache`. -/
def mkCacheData (courses : List Course) (now : String) : CacheData :=
  let courses_data := courses.map courseToDict
  { courses := courses_data, last_updated := now,
    total_courses := courses_data.length }

/-- `save_courses_to_cache`: overwrites the cache file with the snapshot. -/
def save_courses_to_cache (s : AppState) (courses : List Course) (now : String) : AppState :=
  { s with data_file := some (mkCacheData courses now) }

/-- `load_cached_courses`, as the course list read from the cache file
(missing file leaves the list empty). -/
def load_cached_courses (file : Option CacheData) : List Course :=
  match file with
  | none => []
  | some cache => cache.courses.map courseFromDict

/-! ## `refresh_courses`

The background worker body: fetch, store in memory, persist the snapshot,
then post the "Courses refreshed successfully" notification.  The `Bool` of
the result is that success notification; with no configured client the
method warns and returns without touching anything. -/

def refresh_courses (s : AppState) (remote : RemoteResult) (now : String) :
    AppState × Bool :=
  match s.canvas_api with
  | none => (s, false)
  | some _ =>
      let cs := get_courses remote
      (save_courses_to_cache { s with courses := cs } cs now, true)

/-! ## Hidden courses (`hide_course` / `unhide_course` / persistence) -/

/-- `save_hidden_courses`: read the config file (or `{}`), replace only the
`hidden_courses` key, write it back. -/
def save_hidden_courses (s : AppState) : AppState :=
  let config := s.config_file.getD Config.empty
  { s with
    config_file := some ({ config with hidden_courses := some s.hidden_courses }) }

/-- `hide_course`: add the id to the set and persist immediately. -/
def hide_course (s : AppState) (c : Course) : AppState :=
  save_hidden_courses { s with hidden_courses := s.hidden_courses.insert c.id }

/-- `unhide_course`: remove the id when present and persist immediately. -/
def unhide_course (s : AppState) (c : Course) : AppState :=
  if c.id ∈ s.hidden_courses then
    save_hidden_courses { s with hidden_courses := s.hidden_courses.erase c.id }
  else s

/-- `load_hidden_courses`: `set(config.get('hidden_courses', []))`, empty
when the file is missing. -/
def load_hidden_courses (file : Option Config) : List (Option Int) :=
  match file with
  | some config => (config.hidden_courses.getD []).dedup
  | none => []

/-- The visible listing of `display_courses`: the courses whose id is not in
the hidden set, in the order of the underlying list. -/
def visibleCourses (s : AppState) : List Course :=
  s.courses.filter (fun c => decide (c.id ∉ s.hidden_courses))

/-! ## `save_api_config` -/

/-- `save_api_config`: strip both entries, reject when either is empty,
otherwise build a client, run the test fetch (whose remote errors
`make_request` swallows), swap the client in and merge
`canvas_url`/`canvas_token`/`last_updated` into the config file.  The `Bool`
is the "configured successfully" notification. -/
def save_api_config (s : AppState) (urlRaw tokenRaw : String)
    (remote : RemoteResult) (now : String) : AppState × Bool :=
  let url := pyStrip urlRaw
  let token := pyStrip tokenRaw
  if url = "" ∨ token = "" then (s, false)
  else
    let _test_courses := get_courses remote
    let config := s.config_file.getD Config.empty
    ({ s with
        canvas_api := some ({ base_url := rstripSlashes url, token := token }),
        config_file := some ({ config with
          canvas_url := some url, canvas_token := some token,
          last_updated := some now }) },
      true)

/-! ## Notes store

`open_course_details` fixes the sanitized per-course directory,
`handle_save_note_as` forces the `.txt` extension and overwrites the file;
the listing is `refresh_file_list`'s `*.txt` enumeration with each file's
text (as `on_file_select` reads it). -/

/-- The filesystem under `course_notes`: `(directory, filename) ↦ content`. -/
abbrev NotesFS := List ((String × String) × String)

/-- The character class kept by the course-name sanitizer. -/
def keepChar (c : Char) : Bool :=
  c.isAlphanum || c == ' ' || c == '-' || c == '_'

/-- `safe_course_name` from `open_course_details`: keep alphanumerics,
space, hyphen, underscore, then `rstrip()`. -/
def safe_course_name (name : String) : String :=
  pyRStrip (String.mk (name.data.filter keepChar))

/-- The per-course notes directory chosen by `open_course_details`. -/
def course_dir (courseName : String) : String :=
  safe_course_name courseName

/-- The filename actually saved: `.txt` appended when absent. -/
def saveName (filename : String) : String :=
  if pyEndsWith filename ".txt" then filename else filename ++ ".txt"

/-- Overwrite one file (last write wins). -/
def writeNote (fs : NotesFS) (dir fn content : String) : NotesFS :=
  ((dir, fn), content) :: fs.filter (fun e => decide (e.1 ≠ (dir, fn)))

/-- Read one file. -/
def readNote (fs : NotesFS) (dir fn : String) : Option String :=
  (fs.find? (fun e => decide (e.1 = (dir, fn)))).map (fun e => e.2)

/-- `handle_save_note_as` for a course opened via `open_course_details`:
the `if filename:` guard makes an empty filename a no-op, otherwise `.txt`
is appended when absent and the file overwritten. -/
def handle_save_note_as (fs : NotesFS) (courseName filename content : String) :
    NotesFS :=
  if filename = "" then fs
  else writeNote fs (course_dir courseName) (saveName filename) content

/-- The `*.txt` notes of one course with their contents. -/
def list_course_notes (fs : NotesFS) (courseName : String) :
    List (String × String) :=
  (fs.filter (fun e =>
      decide (e.1.1 = course_dir courseName) && pyEndsWith e.1.2 ".txt")).map
    (fun e => (e.1.2, e.2))

/-! ## Sample data used by concrete counterexamples and witnesses -/

/-- A previously fetched course, as cached. -/
def sampleCourse : Course :=
  { id := some 101, name := "Biology Fall 2024", course_code := "BIO101",
    workflow_state := "available", term := some "Fall 2024",
    start_at := none, end_at := none }

/-- A config file holding connection settings and an empty hidden set. -/
def sampleConfig : Config :=
  { canvas_url := some "https://canvas.example.edu",
    canvas_token := some "tok123", hidden_courses := some [],
    last_updated := some "2026-01-01T00:00:00" }

/-- A state with a configured client, one course in memory, and both files
on disk (the cache file holds that course). -/
def cachedState : AppState :=
  { canvas_api := some { base_url := "https://canvas.example.edu", token := "tok123" },
    courses := [sampleCourse],
    hidden_courses := [],
    config_file := some sampleConfig,
    data_file := some (mkCacheData [sampleCourse] "2026-01-01T00:00:00") }

/-- A simulated 401 from the remote API. -/
def err401 : HttpError := { code := 401, reason := "Unauthorized" }

/-- A record whose `term` object is truthy (non-empty dict) but has no
`name` entry, while the course name would pattern-match "Fall 2024". -/
def namelessTermRecord : CourseRecord :=
  { id := some 7, name := some "Fall 2024", course_code := none,
    workflow_state := none, term := some { name := none, hasOtherKeys := true },
    start_at := none, end_at := none }

/-- A cached course dict holding only an id. -/
def bareDict : CourseDict :=
  { id := some 1, name := none, course_code := none, workflow_state := none,
    term := none, start_at := none, end_at := none }

/-! ## C1: refresh under a remote failure -/

/-- C1 counterexample: on `cachedState`, a refresh whose remote fetch fails
with a 401 reports success (the "refreshed successfully" notification), and
replaces both the in-memory course list and the cache file — the claim says
it reports failure and leaves both unmodified. -/
theorem C1_counterexample :
    (refresh_courses cachedState (Except.error err401) "2026-02-02T00:00:00").2 = true ∧
    (refresh_courses cachedState (Except.error err401) "2026-02-02T00:00:00").1.courses = [] ∧
    (refresh_courses cachedState (Except.error err401) "2026-02-02T00:00:00").1.data_file ≠
      cachedState.data_file := by
  refine ⟨rfl, rfl, by decide⟩

/-- C1 (amended): with a configured client, a refresh whose remote fetch
fails swallows the error inside `make_request`, reports success, and
overwrites both the in-memory list and the cache file with an empty
snapshot. -/
theorem C1_refresh_swallows_error (s : AppState) (e : HttpError) (now : String)
    (h : s.canvas_api.isSome = true) :
    refresh_courses s (Except.error e) now =
      ({ s with
         courses := [],
         data_file := some ({ courses := [], last_updated := now, total_courses := 0 }) },
        true) := by
  cases hs : s.canvas_api with
  | none => rw [hs] at h; cases h
  | some a =>
      unfold refresh_courses
      rw [hs]
      rfl

/-- C1 witness: the amended theorem at `cachedState` under a 401. -/
theorem C1_refresh_swallows_error_witness :
    refresh_courses cachedState (Except.error err401) "2026-02-02T00:00:00" =
      ({ cachedState with
         courses := [],
         data_file := some ({ courses := [], last_updated := "2026-02-02T00:00:00", total_courses := 0 }) },
        true) :=
  C1_refresh_swallows_error cachedState err401 "2026-02-02T00:00:00" rfl

/-! ## C2: error classification of the remote fetch -/

/-- C2 counterexample: a 401 and a 404 both make `get_courses` return the
empty list, indistinguishable from the genuinely empty endpoint — the claim
says the fetch fails with a classified error and never silently converts an
error into an empty course list. -/
theorem C2_counterexample :
    get_courses (Except.error err401) = [] ∧
    get_courses (Except.error { code := 404, reason := "Not Found" }) = [] ∧
    get_courses (Except.ok []) = [] :=
  ⟨rfl, rfl, rfl⟩

/-- C2 (amended): every transport or HTTP error is caught inside
`make_request` and turned into the empty list, so `get_courses` yields `[]`
for every failed fetch, exactly as for an empty success — no classification
reaches the caller. -/
theorem C2_error_swallowed (e : HttpError) :
    make_request (Except.error e) = [] ∧
    get_courses (Except.error e) = [] ∧
    get_courses (Except.error e) = get_courses (Except.ok []) :=
  ⟨rfl, rfl, rfl⟩

/-! ## C10: cache snapshot round trip -/

/-- C10: serializing a course list to the cache snapshot and deserializing
it yields the same list field for field, and `total_courses` is its
length. -/
theorem C10_cache_roundtrip (courses : List Course) (now : String) :
    (mkCacheData courses now).total_courses = courses.length ∧
    load_cached_courses (some (mkCacheData courses now)) = courses := by
  constructor
  · simp [mkCacheData]
  · have h : courseFromDict ∘ courseToDict = id := funext fun c => rfl
    simp [load_cached_courses, mkCacheData, List.map_map, h]

/-! ## Non-emptiness of the pattern cascade's results -/

theorem digit4_ne_nil {s y : List Char} (h : digit4 s = some y) : y ≠ [] := by
  unfold digit4 at h
  split at h
  · split at h
    · cases h; simp
    · cases h
  · cases h

theorem searchYear_ne_nil : ∀ {s y : List Char}, searchYear s = some y → y ≠ [] := by
  intro s
  induction s with
  | nil => intro y h; cases h
  | cons c cs ih =>
      intro y h
      unfold searchYear at h
      cases hd : digit4 (c :: cs) with
      | some x => rw [hd] at h; cases h; exact digit4_ne_nil hd
      | none => rw [hd] at h; exact ih h

theorem seasonYearString_ne_empty (m : List Char × List Char) :
    seasonYearString m ≠ "" := by
  unfold seasonYearString
  intro h
  have hd : m.1 ++ (' ' :: m.2) = ([] : List Char) := congrArg String.data h
  simp at hd

theorem extract_from_patterns_ne_empty (name code : String) :
    extract_from_patterns name code ≠ "" := by
  unfold extract_from_patterns
  cases h1 : searchSeasonYear name.data with
  | some m => exact seasonYearString_ne_empty m
  | none =>
  cases h2 : searchSeasonYear code.data with
  | some m => exact seasonYearString_ne_empty m
  | none =>
  cases h3 : searchYear name.data with
  | some y =>
      intro hy
      exact searchYear_ne_nil h3 (congrArg String.data hy)
  | none =>
  cases h4 : searchYear code.data with
  | some y =>
      intro hy
      exact searchYear_ne_nil h4 (congrArg String.data hy)
  | none =>
  by_cases hc : containsSub "Term:".data name.data = true
  · rw [if_pos hc]
    cases h5 : searchTermId name.data with
    | some ds =>
        intro hy
        have hd : "Term: ".data ++ ds = ([] : List Char) := by
          have := congrArg String.data hy
          rwa [String.data_append] at this
        simp at hd
    | none => decide
  · rw [if_neg hc]; decide

/-! ## C4: the explicit-term branch -/

/-- C4 counterexample: a record with a truthy `term` object lacking a name
returns `""` — it does not proceed to the pattern-based steps, which on the
same record's fields would give "Fall 2024". -/
theorem C4_counterexample :
    extract_term namelessTermRecord = "" ∧
    extract_from_patterns "Fall 2024" "" = "Fall 2024" ∧
    extract_term namelessTermRecord ≠ extract_from_patterns "Fall 2024" "" := by
  refine ⟨rfl, by decide, by decide⟩

/-- C4 (amended): with a truthy `term` object the extractor returns the
object's name, or `""` when that name is empty or missing, never falling
through; the pattern-based steps run only when the `term` value is absent or
falsy. -/
theorem C4_explicit_term (r : CourseRecord) (t : TermObj) (ht : r.term = some t) :
    (t.truthy = true → extract_term r = t.name.getD "") ∧
    (t.truthy = false →
      extract_term r = extract_from_patterns (r.name.getD "") (r.course_code.getD "")) := by
  constructor <;> intro h <;> simp [extract_term, ht, h]

/-- C4 witness: a record with an explicit non-empty term name keeps it
verbatim. -/
theorem C4_explicit_term_witness :
    extract_term { id := none, name := none, course_code := none, workflow_state := none,
                   term := some { name := some "Fall 2099", hasOtherKeys := false },
                   start_at := none, end_at := none } = "Fall 2099" :=
  (C4_explicit_term _ { name := some "Fall 2099", hasOtherKeys := false } rfl).1 rfl

/-! ## C5: the term-field invariant -/

/-- C5 counterexample: a cached record lacking the `term` key deserializes
to a course whose term is `none`, and a remote record with a truthy nameless
`term` object yields a course whose term is the empty string — the claim
says every constructed course carries a non-empty term string. -/
theorem C5_counterexample :
    (courseFromDict bareDict).term = none ∧
    (get_courses (Except.ok [namelessTermRecord])).map Course.term = [some ""] :=
  ⟨rfl, rfl⟩

/-- C5 (amended): a course built from a remote record always carries `some`
term string, and that string is empty exactly in the truthy-nameless-term
case; a course deserialized from the cache carries the cached term value
verbatim (possibly absent), with no "Current Term" defaulting applied. -/
theorem C5_term_field (rec : CourseRecord) (d : CourseDict) :
    (courseOfRecord rec).term = some (extract_term rec) ∧
    (extract_term rec = "" →
      ∃ t, rec.term = some t ∧ t.truthy = true ∧ t.name.getD "" = "") ∧
    (courseFromDict d).term = d.term := by
  refine ⟨rfl, ?_, rfl⟩
  intro h
  cases ht : rec.term with
  | none =>
      simp only [extract_term, ht] at h
      exact absurd h (extract_from_patterns_ne_empty _ _)
  | some t =>
      simp only [extract_term, ht] at h
      by_cases htr : t.truthy = true
      · rw [if_pos htr] at h
        exact ⟨t, rfl, htr, h⟩
      · rw [if_neg htr] at h
        exact absurd h (extract_from_patterns_ne_empty _ _)

/-! ## C3: evaluation order of the pattern cascade -/

/-- C3: for records without a `term` key, every season+year check (name,
then course_code) is decided before any bare-year result is used; both
bare-year checks (name, then course_code) are decided before the "Term:"
fallback; the "Term:" fallback applies only when all four searches fail. -/
theorem C3_priority (name code : String) :
    (∀ m, searchSeasonYear name.data = some m →
      extract_term (patternRecord name code) = seasonYearString m) ∧
    (searchSeasonYear name.data = none →
      ∀ m, searchSeasonYear code.data = some m →
        extract_term (patternRecord name code) = seasonYearString m) ∧
    (searchSeasonYear name.data = none → searchSeasonYear code.data = none →
      ∀ y, searchYear name.data = some y →
        extract_term (patternRecord name code) = String.mk y) ∧
    (searchSeasonYear name.data = none → searchSeasonYear code.data = none →
      searchYear name.data = none →
      ∀ y, searchYear code.data = some y →
        extract_term (patternRecord name code) = String.mk y) ∧
    (searchSeasonYear name.data = none → searchSeasonYear code.data = none →
      searchYear name.data = none → searchYear code.data = none →
      containsSub "Term:".data name.data = true →
      ∀ ds, searchTermId name.data = some ds →
        extract_term (patternRecord name code) = "Term: " ++ String.mk ds) := by
  have hrec : extract_term (patternRecord name code) = extract_from_patterns name code := rfl
  rw [hrec]
  unfold extract_from_patterns
  refine ⟨?_, ?_, ?_, ?_, ?_⟩
  · intro m hm
    rw [hm]
  · intro h1 m hm
    rw [h1, hm]
  · intro h1 h2 y hy
    rw [h1, h2, hy]
  · intro h1 h2 h3 y hy
    rw [h1, h2, h3, hy]
  · intro h1 h2 h3 h4 hc ds hds
    rw [h1, h2, h3, h4, hc, hds]
    rw [if_pos rfl]

/-- C3 witness: a record whose name contains "Fall 2024" while its
course_code contains the bare year "2099" yields "Fall 2024". -/
theorem C3_priority_witness :
    extract_term (patternRecord "Advanced Topics Fall 2024" "CS2099") = "Fall 2024" := by
  have h := (C3_priority "Advanced Topics Fall 2024" "CS2099").1
    ("Fall".data, "2024".data) (by decide)
  exact h.trans (by decide)

/-! ## C6: hide / unhide / persistence of the hidden set -/

/-- With pairwise-distinct ids, filtering out one member's id removes
exactly that member, keeping the order of the rest. -/
theorem filter_id_ne_eq_erase (l : List Course) (c : Course)
    (hc : c ∈ l) (hnd : (l.map Course.id).Nodup) :
    l.filter (fun x => decide (x.id ≠ c.id)) = l.erase c := by
  induction l with
  | nil => cases hc
  | cons a tl ih =>
      rw [List.map_cons, List.nodup_cons] at hnd
      cases hc with
      | head =>
          rw [List.erase_cons_head, List.filter_cons_of_neg (by simp)]
          refine List.filter_eq_self.mpr ?_
          intro x hx
          simp only [decide_eq_true_eq]
          intro hxe
          exact hnd.1 (hxe ▸ List.mem_map_of_mem Course.id hx)
      | tail _ htl =>
          by_cases hid : a.id = c.id
          · exact absurd (hid ▸ List.mem_map_of_mem Course.id htl) hnd.1
          · rw [List.filter_cons_of_pos (by simpa using hid),
              List.erase_cons_tail (by simp; intro hac; exact hid (hac ▸ rfl)),
              ih htl hnd.2]

/-- C6: hiding a course removes exactly it from the visible listing (order
of the rest preserved), unhiding restores the previous visible listing, and
after each of the two persists, reloading the hidden set from the config
file reproduces the in-memory hidden set. -/
theorem C6_hide_unhide_persist (s : AppState) (c : Course)
    (hc : c ∈ s.courses) (hid : c.id ∉ s.hidden_courses)
    (hnd : (s.courses.map Course.id).Nodup) (hh : s.hidden_courses.Nodup) :
    visibleCourses (hide_course s c) = (visibleCourses s).erase c ∧
    c ∉ visibleCourses (hide_course s c) ∧
    visibleCourses (unhide_course (hide_course s c) c) = visibleCourses s ∧
    load_hidden_courses (hide_course s c).config_file =
      (hide_course s c).hidden_courses ∧
    load_hidden_courses (unhide_course (hide_course s c) c).config_file =
      s.hidden_courses := by
  have hins : s.hidden_courses.insert c.id = c.id :: s.hidden_courses :=
    List.insert_of_not_mem hid
  have hvh : visibleCourses (hide_course s c) =
      s.courses.filter (fun x => decide (x.id ∉ c.id :: s.hidden_courses)) := by
    simp [visibleCourses, hide_course, save_hidden_courses, hins]
  have hsplit : s.courses.filter (fun x => decide (x.id ∉ c.id :: s.hidden_courses)) =
      (visibleCourses s).filter (fun x => decide (x.id ≠ c.id)) := by
    unfold visibleCourses
    rw [List.filter_filter]
    apply List.filter_congr
    intro x _
    by_cases h1 : x.id = c.id <;> by_cases h2 : x.id ∈ s.hidden_courses <;>
      simp [h1, h2]
  have hcv : c ∈ visibleCourses s :=
    List.mem_filter.mpr ⟨hc, by simpa using hid⟩
  have hvnd : ((visibleCourses s).map Course.id).Nodup :=
    ((List.filter_sublist s.courses).map Course.id).nodup hnd
  have h1 : visibleCourses (hide_course s c) = (visibleCourses s).erase c := by
    rw [hvh, hsplit, filter_id_ne_eq_erase _ _ hcv hvnd]
  have h2 : c ∉ visibleCourses (hide_course s c) := by
    rw [hvh]
    intro hmem
    have := (List.mem_filter.mp hmem).2
    simp at this
  have hunh : unhide_course (hide_course s c) c =
      save_hidden_courses { (hide_course s c) with hidden_courses := s.hidden_courses } := by
    unfold unhide_course
    rw [if_pos]
    · simp [hide_course, save_hidden_courses, hins, List.erase_cons_head]
    · simp [hide_course, save_hidden_courses, hins]
  have h3 : visibleCourses (unhide_course (hide_course s c) c) = visibleCourses s := by
    rw [hunh]
    simp [visibleCourses, hide_course, save_hidden_courses]
  have h4 : load_hidden_courses (hide_course s c).config_file =
      (hide_course s c).hidden_courses := by
    simp only [hide_course, save_hidden_courses, hins, load_hidden_courses]
    exact List.Nodup.dedup (by simpa using And.intro hid hh)
  have h5 : load_hidden_courses (unhide_course (hide_course s c) c).config_file =
      s.hidden_courses := by
    rw [hunh]
    simp only [save_hidden_courses, load_hidden_courses]
    exact List.Nodup.dedup hh
  exact ⟨h1, h2, h3, h4, h5⟩

/-- A second course for the C6 witness state. -/
def courseB : Course :=
  { id := some 202, name := "Chemistry", course_code := "CHEM1",
    workflow_state := "available", term := some "Fall 2024",
    start_at := none, end_at := none }

/-- Witness state: two courses, nothing hidden, no files yet. -/
def twoCourseState : AppState :=
  { canvas_api := none, courses := [sampleCourse, courseB],
    hidden_courses := [], config_file := none, data_file := none }

/-- C6 witness: the theorem at a concrete two-course state, hiding and
unhiding `sampleCourse`. -/
theorem C6_hide_unhide_persist_witness :
    visibleCourses (hide_course twoCourseState sampleCourse) =
      (visibleCourses twoCourseState).erase sampleCourse ∧
    sampleCourse ∉ visibleCourses (hide_course twoCourseState sampleCourse) ∧
    visibleCourses (unhide_course (hide_course twoCourseState sampleCourse) sampleCourse) =
      visibleCourses twoCourseState ∧
    load_hidden_courses (hide_course twoCourseState sampleCourse).config_file =
      (hide_course twoCourseState sampleCourse).hidden_courses ∧
    load_hidden_courses
        (unhide_course (hide_course twoCourseState sampleCourse) sampleCourse).config_file =
      twoCourseState.hidden_courses :=
  C6_hide_unhide_persist twoCourseState sampleCourse (by decide) (by decide)
    (by decide) (by decide)

/-! ## C7: read-merge-write frame on the shared config file -/

/-- C7: persisting the hidden set rewrites only the `hidden_courses` key,
keeping `canvas_url`, `canvas_token` and `last_updated` as read; persisting
the connection config keeps `hidden_courses` as read (in both branches of
the validation). -/
theorem C7_config_frame (s : AppState) (urlRaw tokenRaw : String)
    (remote : RemoteResult) (now : String) :
    ((save_hidden_courses s).config_file.getD Config.empty).canvas_url =
      (s.config_file.getD Config.empty).canvas_url ∧
    ((save_hidden_courses s).config_file.getD Config.empty).canvas_token =
      (s.config_file.getD Config.empty).canvas_token ∧
    ((save_hidden_courses s).config_file.getD Config.empty).last_updated =
      (s.config_file.getD Config.empty).last_updated ∧
    (((save_api_config s urlRaw tokenRaw remote now).1.config_file).getD Config.empty).hidden_courses =
      (s.config_file.getD Config.empty).hidden_courses := by
  refine ⟨rfl, rfl, rfl, ?_⟩
  unfold save_api_config
  by_cases h : pyStrip urlRaw = "" ∨ pyStrip tokenRaw = ""
  · rw [if_pos h]
  · rw [if_neg h]; rfl

/-! ## C8: save-configuration validation -/

/-- C8 counterexample: with both fields non-empty but the remote fetch
failing with a 401, the test fetch does not succeed, yet `save_api_config`
reports success, swaps the client in and rewrites the persisted config file
— the claim allows persisting only when one test fetch succeeds. -/
theorem C8_counterexample :
    (save_api_config cachedState "https://x.example" "badtoken"
      (Except.error err401) "2026-03-03T00:00:00").2 = true ∧
    (save_api_config cachedState "https://x.example" "badtoken"
      (Except.error err401) "2026-03-03T00:00:00").1.canvas_api =
      some { base_url := "https://x.example", token := "badtoken" } ∧
    (save_api_config cachedState "https://x.example" "badtoken"
      (Except.error err401) "2026-03-03T00:00:00").1.config_file ≠
      cachedState.config_file := by
  refine ⟨by decide, by decide, by decide⟩

/-- C8 (amended): when the stripped URL or token is empty the save reports
failure and changes nothing; when both are non-empty the config is persisted
and the client swapped in for every remote outcome — the test fetch cannot
fail, because `make_request` swallows its errors. -/
theorem C8_empty_check_only (s : AppState) (urlRaw tokenRaw : String)
    (remote : RemoteResult) (now : String) :
    (pyStrip urlRaw = "" ∨ pyStrip tokenRaw = "" →
      save_api_config s urlRaw tokenRaw remote now = (s, false)) ∧
    (pyStrip urlRaw ≠ "" → pyStrip tokenRaw ≠ "" →
      save_api_config s urlRaw tokenRaw remote now =
        ({ s with
           canvas_api := some ({ base_url := rstripSlashes (pyStrip urlRaw),
                                 token := pyStrip tokenRaw }),
           config_file := some ({ s.config_file.getD Config.empty with
             canvas_url := some (pyStrip urlRaw),
             canvas_token := some (pyStrip tokenRaw),
             last_updated := some now }) },
          true)) := by
  constructor
  · intro h
    unfold save_api_config
    rw [if_pos h]
  · intro h1 h2
    unfold save_api_config
    rw [if_neg (by simp [h1, h2])]

/-! ## C9: note saving and listing -/

theorem dropWhile_idem (p : Char → Bool) (l : List Char) :
    (l.dropWhile p).dropWhile p = l.dropWhile p := by
  induction l with
  | nil => rfl
  | cons a tl ih =>
      by_cases h : p a
      · simp [List.dropWhile_cons, h, ih]
      · simp [List.dropWhile_cons, h]

theorem rstripChars_idem (l : List Char) :
    rstripChars (rstripChars l) = rstripChars l := by
  unfold rstripChars
  rw [List.reverse_reverse, dropWhile_idem]

theorem mem_rstripChars {c : Char} {l : List Char} (h : c ∈ rstripChars l) :
    c ∈ l := by
  unfold rstripChars at h
  rw [List.mem_reverse] at h
  rw [← List.mem_reverse]
  exact (List.dropWhile_sublist isPySpace).mem h

theorem pyEndsWith_append (x pat : String) : pyEndsWith (x ++ pat) pat = true := by
  unfold pyEndsWith
  rw [String.data_append, List.reverse_append,
    show pat.data.length = pat.data.reverse.length from (List.length_reverse _).symm,
    List.take_left]
  simp

/-- C9: for a non-empty filename (the `if filename:` guard of the source
makes an empty one a no-op), saving a note stores it under the sanitized
course directory (only alphanumerics, space, hyphen, underscore survive; no
trailing whitespace), under the filename with `.txt` appended when absent,
and the subsequent listing of that course's notes maps that filename to the
saved content. -/
theorem C9_save_then_list (fs : NotesFS) (courseName filename content : String)
    (hfn : filename ≠ "") :
    (∀ ch ∈ (course_dir courseName).data, keepChar ch = true) ∧
    rstripChars (course_dir courseName).data = (course_dir courseName).data ∧
    pyEndsWith (saveName filename) ".txt" = true ∧
    readNote (handle_save_note_as fs courseName filename content)
      (course_dir courseName) (saveName filename) = some content ∧
    (saveName filename, content) ∈
      list_course_notes (handle_save_note_as fs courseName filename content) courseName := by
  have hkeep : ∀ ch ∈ (course_dir courseName).data, keepChar ch = true := by
    intro ch hch
    have hm : ch ∈ courseName.data.filter keepChar :=
      mem_rstripChars hch
    exact (List.mem_filter.mp hm).2
  have hstrip : rstripChars (course_dir courseName).data = (course_dir courseName).data :=
    rstripChars_idem _
  have hext : pyEndsWith (saveName filename) ".txt" = true := by
    unfold saveName
    by_cases he : pyEndsWith filename ".txt" = true
    · rw [if_pos he]; exact he
    · rw [if_neg he]; exact pyEndsWith_append filename ".txt"
  have hsave : handle_save_note_as fs courseName filename content =
      writeNote fs (course_dir courseName) (saveName filename) content := by
    unfold handle_save_note_as
    rw [if_neg hfn]
  have hread : readNote (handle_save_note_as fs courseName filename content)
      (course_dir courseName) (saveName filename) = some content := by
    rw [hsave]
    unfold writeNote readNote
    rw [List.find?_cons_of_pos _ (by simp)]
    rfl
  have hlist : (saveName filename, content) ∈
      list_course_notes (handle_save_note_as fs courseName filename content) courseName := by
    unfold list_course_notes
    refine List.mem_map.mpr
      ⟨((course_dir courseName, saveName filename), content), ?_, rfl⟩
    refine List.mem_filter.mpr ⟨?_, ?_⟩
    · rw [hsave]
      unfold writeNote
      exact List.mem_cons_self _ _
    · simp [hext]
  exact ⟨hkeep, hstrip, hext, hread, hlist⟩

/-- C9 witness: the spec's own example, `saveNote("CS 101!", "midterm",
"hi")` on an empty filesystem, then listing "CS 101!". -/
theorem C9_save_then_list_witness :
    (∀ ch ∈ (course_dir "CS 101!").data, keepChar ch = true) ∧
    rstripChars (course_dir "CS 101!").data = (course_dir "CS 101!").data ∧
    pyEndsWith (saveName "midterm") ".txt" = true ∧
    readNote (handle_save_note_as [] "CS 101!" "midterm" "hi")
      (course_dir "CS 101!") (saveName "midterm") = some "hi" ∧
    (saveName "midterm", "hi") ∈
      list_course_notes (handle_save_note_as [] "CS 101!" "midterm" "hi") "CS 101!" :=
  C9_save_then_list [] "CS 101!" "midterm" "hi" (by decide)

end CanvasNotes
